import Mathlib

/-
Verification of create_icons.py, a placeholder-icon generator for the Rubi
browser extension.

The script is embedded shallowly as a pure interpreter.  Everything the
script asks of its environment (whether the Pillow import succeeds, whether
loading the Helvetica truetype font raises, the bounding box Pillow measures
for a glyph under a font, the rasterised glyph mask, and whether a file save
raises) is a field of `Env`.  Running the program yields a trace of
observable events (directory creation, canvas allocation, glyph drawing,
file saves, console prints), a final filesystem state, and an outcome
(exit 0 / exit 1 / crashed by an unhandled exception).
-/

/-- An RGB colour, a triple of 8-bit components, as the Python tuples
`(102, 126, 234)` and `(255, 255, 255)`. -/
abbrev RGB := Nat × Nat × Nat

/-- A Pillow font object.  `truetype p s` is the result of
`ImageFont.truetype(p, s)` (create_icons.py line 35); `defaultFont` is the
result of `ImageFont.load_default()` (line 38), which takes no size
argument. -/
inductive Font where
  | truetype (path : String) (size : Nat)
  | defaultFont
deriving DecidableEq

/-- The 4-tuple returned by `draw.textbbox((0, 0), text, font=font)`
(create_icons.py line 44): fields x0, y0, x1, y1 are the Python
`bbox[0] .. bbox[3]`. -/
structure Bbox where
  x0 : Int
  y0 : Int
  x1 : Int
  y1 : Int
deriving DecidableEq

/-- The environment of one run: every fallible or platform-dependent call
the script makes, abstracted as data.
* `pillowAvailable`: whether `from PIL import ...` (line 8) succeeds.
* `truetypeFails p s`: whether `ImageFont.truetype(p, s)` (line 35) raises
  (any exception: the `except` on line 36 is bare).
* `textbbox f t`: the box `draw.textbbox((0,0), t, font=f)` measures
  (line 44).
* `glyphMask f t x y`: whether rasterising text `t` under font `f` covers
  the pixel at offset `(x, y)` from the draw origin.
* `saveFails s`: whether `img.save` (line 53) raises for the icon of size
  `s` (e.g. a disk write error). -/
structure Env where
  pillowAvailable : Bool
  truetypeFails : String → Nat → Bool
  textbbox : Font → String → Bbox
  glyphMask : Font → String → Int → Int → Bool
  saveFails : Nat → Bool

/-- An in-memory Pillow image: mode, dimensions in pixels, and the colour of
each pixel. -/
structure PILImage where
  mode : String
  width : Nat
  height : Nat
  pix : Int → Int → RGB

/-- `Image.new(mode, (w, h), color)` (create_icons.py line 28): a fresh
canvas every one of whose pixels holds `color`. -/
def PILImage.new (mode : String) (wh : Nat × Nat) (color : RGB) : PILImage :=
  ⟨mode, wh.1, wh.2, fun _ _ => color⟩

/-- `draw.text(pos, text, fill=fill, font=font)` (create_icons.py line 49):
pixels covered by the glyph mask, translated to `pos`, become `fill`; all
other pixels keep their colour. -/
def drawTextOn (env : Env) (img : PILImage) (pos : Int × Int)
    (text : String) (fill : RGB) (font : Font) : PILImage :=
  { img with pix := fun x y =>
      if env.glyphMask font text (x - pos.1) (y - pos.2) then fill
      else img.pix x y }

/-- The filesystem: which directories exist and what image file, if any,
sits at each path. -/
structure FS where
  dirExists : String → Bool
  fileAt : String → Option PILImage

/-- A filesystem with no directories and no files. -/
def emptyFS : FS := ⟨fun _ => false, fun _ => none⟩

/-- Split a character list into the groups separated by the slash
character, as Python path components. -/
def splitSlash : List Char → List (List Char)
  | [] => [[]]
  | c :: rest =>
    let groups := splitSlash rest
    if c = '/' then [] :: groups
    else match groups with
      | [] => [[c]]
      | g :: gs => (c :: g) :: gs

/-- Join path components back with slashes. -/
def joinSlash : List String → String
  | [] => ""
  | [p] => p
  | p :: rest => p ++ "/" ++ joinSlash rest

/-- The chain of paths `os.makedirs` creates for a relative path: every
prefix of the `/`-separated components.  For "assets/icons" this is
["assets", "assets/icons"]. -/
def ancestors (p : String) : List String :=
  let parts := (splitSlash p.data).map (fun cs => String.mk cs)
  (List.range parts.length).map (fun i => joinSlash (parts.take (i + 1)))

/-- `os.makedirs(p, exist_ok=True)` (create_icons.py line 24): afterwards
`p` and all its parents exist; directories that already existed remain;
files are untouched; with `exist_ok=True` a pre-existing directory raises
nothing, so the operation is total. -/
def makedirsExistOk (fs : FS) (p : String) : FS :=
  { fs with dirExists := fun d => fs.dirExists d || (ancestors p).contains d }

/-- `img.save(path, "PNG")` (create_icons.py line 53) on success: the file
at `path` now holds `img`, replacing any previous file there; nothing else
changes. -/
def FS.writeFile (fs : FS) (p : String) (img : PILImage) : FS :=
  { fs with fileAt := fun q => if q == p then some img else fs.fileAt q }

/-- One observable event of a run. -/
inductive Event where
  | printLine (s : String)
  | makedirs (path : String) (existOk : Bool)
  | newImage (mode : String) (w : Nat) (h : Nat) (color : RGB)
  | drawText (pos : Int × Int) (text : String) (fill : RGB) (font : Font)
  | saveFile (path : String) (format : String)
deriving DecidableEq

/-- How a run of the script ends: `exited c` is an explicit `exit(c)` call,
`finished` is normal termination (process exit status 0), `crashed` is an
unhandled exception propagating out (implementation-default error report
and a nonzero process exit status). -/
inductive Outcome where
  | exited (code : Nat)
  | finished
  | crashed
deriving DecidableEq

/-- The exit status of an outcome, when the program itself determines one:
an explicit `exit(c)` gives `c`, normal termination gives 0, and a crash
gives the interpreter-chosen nonzero status (left unspecified, hence
`none`). -/
def exitStatus : Outcome → Option Nat
  | Outcome.exited c => some c
  | Outcome.finished => some 0
  | Outcome.crashed => none

/-- The result of a run: the event trace, the final filesystem, and the
outcome. -/
structure RunResult where
  trace : List Event
  fs : FS
  outcome : Outcome

/-- Configuration constant `SIZES = [16, 48, 128]` (create_icons.py
line 16). -/
def SIZES : List Nat := [16, 48, 128]

/-- Configuration constant `OUTPUT_DIR = "assets/icons"` (line 17). -/
def OUTPUT_DIR : String := "assets/icons"

/-- Configuration constant `BG_COLOR = (102, 126, 234)` (line 20). -/
def BG_COLOR : RGB := (102, 126, 234)

/-- Configuration constant `TEXT_COLOR = (255, 255, 255)` (line 21). -/
def TEXT_COLOR : RGB := (255, 255, 255)

/-- The glyph drawn on every icon, `text = "R"` (line 41). -/
def TEXT : String := "R"

/-- The preferred font file path passed to `ImageFont.truetype` (line 35). -/
def HELVETICA : String := "/System/Library/Fonts/Helvetica.ttc"

/-- `font_size = int(size * 0.6)` (line 34).  The float product is
truncated toward zero; for the positive sizes the script uses (16, 48, 128
give 9, 28, 76) this coincides with natural floor division by 10 of six
times the size, which is how it is embedded here. -/
def fontSize (size : Nat) : Nat := size * 6 / 10

/-- Lines 32-38: try `ImageFont.truetype(HELVETICA, font_size)`; on any
exception (the `except` clause is bare) fall back to
`ImageFont.load_default()`, which is not given the computed size. -/
def chooseFont (env : Env) (size : Nat) : Font :=
  if env.truetypeFails HELVETICA (fontSize size) then Font.defaultFont
  else Font.truetype HELVETICA (fontSize size)

/-- Lines 44-48: measure `bbox = draw.textbbox((0,0), text, font=font)`,
set `text_width = bbox[2] - bbox[0]`, `text_height = bbox[3] - bbox[1]`,
and `position = ((size - text_width) // 2,
(size - text_height) // 2 - bbox[1])`.  Python `//` on integers is floor
division, `Int.fdiv`. -/
def positionOf (env : Env) (size : Nat) : Int × Int :=
  let bbox := env.textbbox (chooseFont env size) TEXT
  let text_width := bbox.x1 - bbox.x0
  let text_height := bbox.y1 - bbox.y0
  (((size : Int) - text_width).fdiv 2,
   ((size : Int) - text_height).fdiv 2 - bbox.y0)

/-- The fully rendered icon for one size: the fresh background canvas of
line 28 with the glyph of line 49 drawn at the centred position. -/
def renderedIcon (env : Env) (size : Nat) : PILImage :=
  drawTextOn env (PILImage.new "RGB" (size, size) BG_COLOR)
    (positionOf env size) TEXT TEXT_COLOR (chooseFont env size)

/-- The f-string `f"{OUTPUT_DIR}/icon{size}.png"` of line 52. -/
def iconPath (size : Nat) : String :=
  OUTPUT_DIR ++ "/icon" ++ toString size ++ ".png"

/-- One iteration of the `for size in SIZES` loop (lines 26-54): allocate
the background canvas, choose the font, draw the glyph, then save and print
the confirmation.  If `img.save` raises, the iteration stops there: the
events before the save stand, the filesystem is unchanged, and the third
component (the crash flag) is true. -/
def renderSize (env : Env) (fs : FS) (size : Nat) : List Event × FS × Bool :=
  let position := positionOf env size
  let font := chooseFont env size
  let evs := [Event.newImage "RGB" size size BG_COLOR,
              Event.drawText position TEXT TEXT_COLOR font]
  let output_path := iconPath size
  if env.saveFails size then (evs, fs, true)
  else (evs ++ [Event.saveFile output_path "PNG",
                Event.printLine ("Created " ++ output_path)],
        fs.writeFile output_path (renderedIcon env size), false)

/-- The `for size in SIZES` loop: iterations run in list order; an
unhandled exception in one iteration stops the loop (crash flag true)
with the events and files of the completed prefix kept. -/
def runLoop (env : Env) (fs : FS) : List Nat → List Event × FS × Bool
  | [] => ([], fs, false)
  | s :: rest =>
    let r := renderSize env fs s
    if r.2.2 then (r.1, r.2.1, true)
    else
      let r2 := runLoop env r.2.1 rest
      (r.1 ++ r2.1, r2.2.1, r2.2.2)

/-- The guidance printed when the Pillow import fails (line 10). -/
def pillowMissingMsg : String := "Pillow not installed. Run: pip install Pillow"

/-- The first final print, `print("\nIcons created successfully!")`
(line 56). -/
def successMsg1 : String := "\nIcons created successfully!"

/-- The second final print (line 57). -/
def successMsg2 : String := "You can now load the extension in Chrome."

/-- The whole script.  If the Pillow import fails (line 7-11): print the
guidance and `exit(1)`, touching nothing.  Otherwise: `os.makedirs`
(line 24), the size loop (lines 26-54), and on a clean loop the two final
prints (lines 56-57) and normal termination; an unhandled exception inside
the loop propagates, skipping the final prints. -/
def runProgram (env : Env) (init : FS) : RunResult :=
  if env.pillowAvailable then
    let fs0 := makedirsExistOk init OUTPUT_DIR
    let r := runLoop env fs0 SIZES
    if r.2.2 then
      ⟨Event.makedirs OUTPUT_DIR true :: r.1, r.2.1, Outcome.crashed⟩
    else
      ⟨Event.makedirs OUTPUT_DIR true ::
         (r.1 ++ [Event.printLine successMsg1, Event.printLine successMsg2]),
       r.2.1, Outcome.finished⟩
  else
    ⟨[Event.printLine pillowMissingMsg], init, Outcome.exited 1⟩

/-- The console output of a run: the arguments of the print calls, in
order. -/
def printedLines (t : List Event) : List String :=
  t.filterMap fun e => match e with
    | Event.printLine s => some s
    | _ => none

/-- A run with Pillow present and every save succeeding: the full trace,
final filesystem, and normal termination, computed once for reuse. -/
theorem runProgram_ok (env : Env) (init : FS)
    (hp : env.pillowAvailable = true)
    (h16 : env.saveFails 16 = false) (h48 : env.saveFails 48 = false)
    (h128 : env.saveFails 128 = false) :
    runProgram env init =
      ⟨[Event.makedirs OUTPUT_DIR true,
        Event.newImage "RGB" 16 16 BG_COLOR,
        Event.drawText (positionOf env 16) TEXT TEXT_COLOR (chooseFont env 16),
        Event.saveFile (iconPath 16) "PNG",
        Event.printLine ("Created " ++ iconPath 16),
        Event.newImage "RGB" 48 48 BG_COLOR,
        Event.drawText (positionOf env 48) TEXT TEXT_COLOR (chooseFont env 48),
        Event.saveFile (iconPath 48) "PNG",
        Event.printLine ("Created " ++ iconPath 48),
        Event.newImage "RGB" 128 128 BG_COLOR,
        Event.drawText (positionOf env 128) TEXT TEXT_COLOR (chooseFont env 128),
        Event.saveFile (iconPath 128) "PNG",
        Event.printLine ("Created " ++ iconPath 128),
        Event.printLine successMsg1, Event.printLine successMsg2],
       (((makedirsExistOk init OUTPUT_DIR).writeFile (iconPath 16) (renderedIcon env 16)).writeFile
           (iconPath 48) (renderedIcon env 48)).writeFile (iconPath 128) (renderedIcon env 128),
       Outcome.finished⟩ := by
  simp [runProgram, runLoop, renderSize, SIZES, hp, h16, h48, h128]

/-- A run whose save for size 48 raises (size 16 having succeeded): the
trace stops mid-iteration, only icon16 was written, and the outcome is a
crash. -/
theorem runProgram_crash48 (env : Env) (init : FS)
    (hp : env.pillowAvailable = true)
    (h16 : env.saveFails 16 = false) (h48 : env.saveFails 48 = true) :
    runProgram env init =
      ⟨[Event.makedirs OUTPUT_DIR true,
        Event.newImage "RGB" 16 16 BG_COLOR,
        Event.drawText (positionOf env 16) TEXT TEXT_COLOR (chooseFont env 16),
        Event.saveFile (iconPath 16) "PNG",
        Event.printLine ("Created " ++ iconPath 16),
        Event.newImage "RGB" 48 48 BG_COLOR,
        Event.drawText (positionOf env 48) TEXT TEXT_COLOR (chooseFont env 48)],
       (makedirsExistOk init OUTPUT_DIR).writeFile (iconPath 16) (renderedIcon env 16),
       Outcome.crashed⟩ := by
  simp [runProgram, runLoop, renderSize, SIZES, hp, h16, h48]

/-- A run whose save for size 128 raises (16 and 48 having succeeded). -/
theorem runProgram_crash128 (env : Env) (init : FS)
    (hp : env.pillowAvailable = true)
    (h16 : env.saveFails 16 = false) (h48 : env.saveFails 48 = false)
    (h128 : env.saveFails 128 = true) :
    runProgram env init =
      ⟨[Event.makedirs OUTPUT_DIR true,
        Event.newImage "RGB" 16 16 BG_COLOR,
        Event.drawText (positionOf env 16) TEXT TEXT_COLOR (chooseFont env 16),
        Event.saveFile (iconPath 16) "PNG",
        Event.printLine ("Created " ++ iconPath 16),
        Event.newImage "RGB" 48 48 BG_COLOR,
        Event.drawText (positionOf env 48) TEXT TEXT_COLOR (chooseFont env 48),
        Event.saveFile (iconPath 48) "PNG",
        Event.printLine ("Created " ++ iconPath 48),
        Event.newImage "RGB" 128 128 BG_COLOR,
        Event.drawText (positionOf env 128) TEXT TEXT_COLOR (chooseFont env 128)],
       ((makedirsExistOk init OUTPUT_DIR).writeFile (iconPath 16) (renderedIcon env 16)).writeFile
          (iconPath 48) (renderedIcon env 48),
       Outcome.crashed⟩ := by
  simp [runProgram, runLoop, renderSize, SIZES, hp, h16, h48, h128]

/-- The events one loop iteration emits depend only on the environment and
the size, never on the filesystem it is given. -/
theorem renderSize_trace_const (env : Env) (s : Nat) (fs fs' : FS) :
    (renderSize env fs s).1 = (renderSize env fs' s).1 := by
  cases hb : env.saveFails s <;> simp [renderSize, hb]

/-- Whether one loop iteration crashes depends only on the environment and
the size, never on the filesystem it is given. -/
theorem renderSize_flag_const (env : Env) (s : Nat) (fs fs' : FS) :
    (renderSize env fs s).2.2 = (renderSize env fs' s).2.2 := by
  cases hb : env.saveFails s <;> simp [renderSize, hb]

/-- The trace of the size loop depends only on the environment and the size
list, never on the filesystem state it starts from. -/
theorem runLoop_trace_const (env : Env) (l : List Nat) :
    ∀ fs fs' : FS, (runLoop env fs l).1 = (runLoop env fs' l).1 := by
  induction l with
  | nil => intro fs fs'; rfl
  | cons s rest ih =>
    intro fs fs'
    cases hb : env.saveFails s <;>
      simp [runLoop, renderSize, hb, ih (FS.writeFile fs (iconPath s) (renderedIcon env s))
        (FS.writeFile fs' (iconPath s) (renderedIcon env s))]

/-- Whether the size loop crashes depends only on the environment and the
size list, never on the filesystem state it starts from. -/
theorem runLoop_flag_const (env : Env) (l : List Nat) :
    ∀ fs fs' : FS, (runLoop env fs l).2.2 = (runLoop env fs' l).2.2 := by
  induction l with
  | nil => intro fs fs'; rfl
  | cons s rest ih =>
    intro fs fs'
    cases hb : env.saveFails s <;>
      simp [runLoop, renderSize, hb, ih (FS.writeFile fs (iconPath s) (renderedIcon env s))
        (FS.writeFile fs' (iconPath s) (renderedIcon env s))]

/-- A sample measured bounding box for concrete runs. -/
def bboxSample : Bbox := ⟨1, 3, 8, 12⟩

/-- A benign environment: Pillow present, the truetype font loads, every
save succeeds. -/
def envOk : Env :=
  ⟨true, fun _ _ => false, fun _ _ => bboxSample, fun _ _ _ _ => false, fun _ => false⟩

/-- An environment in which the Pillow import fails. -/
def envNoPillow : Env :=
  ⟨false, fun _ _ => false, fun _ _ => bboxSample, fun _ _ _ _ => false, fun _ => false⟩

/-- An environment in which every `ImageFont.truetype` call raises. -/
def envFontFail : Env :=
  ⟨true, fun _ _ => true, fun _ _ => bboxSample, fun _ _ _ _ => false, fun _ => false⟩

/-- An environment in which the save of the size-48 icon raises. -/
def envSaveFail48 : Env :=
  ⟨true, fun _ _ => false, fun _ _ => bboxSample, fun _ _ _ _ => false, fun s => s == 48⟩

/-- An environment in which the save of the size-128 icon raises. -/
def envSaveFail128 : Env :=
  ⟨true, fun _ _ => false, fun _ _ => bboxSample, fun _ _ _ _ => false, fun s => s == 128⟩

/-- An environment in which every save raises (e.g. the disk is full). -/
def envSaveFailAll : Env :=
  ⟨true, fun _ _ => false, fun _ _ => bboxSample, fun _ _ _ _ => false, fun _ => true⟩

/-- A filesystem in which the output directory and its parent already
exist. -/
def assetsFS : FS :=
  ⟨fun d => d == "assets" || d == "assets/icons", fun _ => none⟩

/-- C1 counterexample: with Pillow available but the very first disk write
raising an unhandled exception, the program does not terminate normally
with exit status 0, so the unconditional second half of the claim fails. -/
theorem c1_exit_status_counterexample :
    envSaveFailAll.pillowAvailable = true ∧
    exitStatus (runProgram envSaveFailAll emptyFS).outcome ≠ some 0 := by
  decide

/-- C1 (amended): if Pillow is unavailable, the program prints the install
instruction and terminates with exit status 1, creating no directory and no
file and doing no other work; if Pillow is available and no unhandled error
(such as a disk write failure) occurs while processing the size list, the
program terminates normally with exit status 0. -/
theorem c1_pillow_guard (env : Env) (init : FS) :
    (env.pillowAvailable = false →
      runProgram env init =
        ⟨[Event.printLine pillowMissingMsg], init, Outcome.exited 1⟩ ∧
      exitStatus (runProgram env init).outcome = some 1) ∧
    (env.pillowAvailable = true → env.saveFails 16 = false →
      env.saveFails 48 = false → env.saveFails 128 = false →
      exitStatus (runProgram env init).outcome = some 0) := by
  constructor
  · intro hp
    have h : runProgram env init =
        ⟨[Event.printLine pillowMissingMsg], init, Outcome.exited 1⟩ := by
      simp [runProgram, hp]
    refine ⟨h, ?_⟩
    rw [h]
    rfl
  · intro hp h16 h48 h128
    rw [runProgram_ok env init hp h16 h48 h128]
    rfl

/-- C1 witness: both halves of the amended claim at concrete inputs. -/
theorem c1_pillow_guard_witness :
    (runProgram envNoPillow emptyFS =
       ⟨[Event.printLine pillowMissingMsg], emptyFS, Outcome.exited 1⟩ ∧
     exitStatus (runProgram envNoPillow emptyFS).outcome = some 1) ∧
    exitStatus (runProgram envOk emptyFS).outcome = some 0 :=
  ⟨(c1_pillow_guard envNoPillow emptyFS).1 rfl,
   (c1_pillow_guard envOk emptyFS).2 rfl rfl rfl rfl⟩

/-- C2: in every environment and for every size S, the glyph "R" is drawn
in the foreground colour (255, 255, 255) at position
((S - (x1 - x0)) // 2, (S - (y1 - y0)) // 2 - y0) computed with integer
floor division from the measured bounding box (x0, y0, x1, y1); on the
rendered icon, pixels inside the glyph mask translated to that position get
the foreground colour and all others keep the background colour. -/
theorem c2_glyph_position (env : Env) (fs : FS) (s : Nat) :
    (renderSize env fs s).1.get? 1 =
      some (Event.drawText
        (((s : Int) - ((env.textbbox (chooseFont env s) TEXT).x1
              - (env.textbbox (chooseFont env s) TEXT).x0)).fdiv 2,
          ((s : Int) - ((env.textbbox (chooseFont env s) TEXT).y1
              - (env.textbbox (chooseFont env s) TEXT).y0)).fdiv 2
            - (env.textbbox (chooseFont env s) TEXT).y0)
        TEXT (255, 255, 255) (chooseFont env s)) ∧
    (∀ x y : Int, (renderedIcon env s).pix x y =
      if env.glyphMask (chooseFont env s) TEXT (x - (positionOf env s).1)
          (y - (positionOf env s).2) = true
      then (255, 255, 255) else (102, 126, 234)) := by
  constructor
  · cases hb : env.saveFails s <;>
      simp [renderSize, hb, positionOf, TEXT_COLOR]
  · intro x y
    simp [renderedIcon, drawTextOn, PILImage.new, TEXT_COLOR, BG_COLOR]

/-- C3: the preferred font is Helvetica at the scaled size; any load
failure silently falls back to the built-in default font; and no pattern of
font-load failures prevents the run from finishing with the standard
console output (which contains no warning line). -/
theorem c3_font_fallback (env : Env) (init : FS) :
    (∀ s : Nat, env.truetypeFails HELVETICA (fontSize s) = true →
      chooseFont env s = Font.defaultFont) ∧
    (∀ s : Nat, env.truetypeFails HELVETICA (fontSize s) = false →
      chooseFont env s = Font.truetype HELVETICA (fontSize s)) ∧
    (env.pillowAvailable = true → env.saveFails 16 = false →
     env.saveFails 48 = false → env.saveFails 128 = false →
      (runProgram env init).outcome = Outcome.finished ∧
      printedLines (runProgram env init).trace =
        ["Created " ++ iconPath 16, "Created " ++ iconPath 48,
         "Created " ++ iconPath 128, successMsg1, successMsg2]) := by
  refine ⟨fun s h => by simp [chooseFont, h],
          fun s h => by simp [chooseFont, h], ?_⟩
  intro hp h16 h48 h128
  rw [runProgram_ok env init hp h16 h48 h128]
  exact ⟨rfl, by simp [printedLines]⟩

/-- C3 witness: with every truetype load failing, the fallback font is
chosen for size 16 and the run still finishes. -/
theorem c3_font_fallback_witness :
    chooseFont envFontFail 16 = Font.defaultFont ∧
    (runProgram envFontFail emptyFS).outcome = Outcome.finished :=
  ⟨(c3_font_fallback envFontFail emptyFS).1 16 rfl,
   ((c3_font_fallback envFontFail emptyFS).2.2 rfl rfl rfl rfl).1⟩

/-- C4: the configured sizes are 16, 48, 128 in that order; a canvas made
by `Image.new` is entirely the background colour (102, 126, 234); and in a
successful run, for each configured size S the trace holds an allocation of
a fresh S by S RGB canvas filled with the background colour strictly before
the glyph draw for that size. -/
theorem c4_fresh_background_canvas (env : Env) (init : FS)
    (hp : env.pillowAvailable = true) (h16 : env.saveFails 16 = false)
    (h48 : env.saveFails 48 = false) (h128 : env.saveFails 128 = false) :
    SIZES = [16, 48, 128] ∧
    (∀ s : Nat, ∀ x y : Int,
      (PILImage.new "RGB" (s, s) BG_COLOR).pix x y = (102, 126, 234)) ∧
    (∀ s ∈ SIZES, ∃ i j : Nat, i < j ∧
      (runProgram env init).trace.get? i =
        some (Event.newImage "RGB" s s BG_COLOR) ∧
      (runProgram env init).trace.get? j =
        some (Event.drawText (positionOf env s) TEXT TEXT_COLOR
          (chooseFont env s))) := by
  refine ⟨rfl, fun s x y => rfl, ?_⟩
  intro s hs
  rw [runProgram_ok env init hp h16 h48 h128]
  rcases show s = 16 ∨ s = 48 ∨ s = 128 by simpa [SIZES] using hs with rfl | rfl | rfl
  · exact ⟨1, 2, by omega, rfl, rfl⟩
  · exact ⟨5, 6, by omega, rfl, rfl⟩
  · exact ⟨9, 10, by omega, rfl, rfl⟩

/-- C4 witness: the canvas-before-draw ordering at size 16 in a concrete
benign run. -/
theorem c4_fresh_background_canvas_witness :
    ∃ i j : Nat, i < j ∧
      (runProgram envOk emptyFS).trace.get? i =
        some (Event.newImage "RGB" 16 16 BG_COLOR) ∧
      (runProgram envOk emptyFS).trace.get? j =
        some (Event.drawText (positionOf envOk 16) TEXT TEXT_COLOR
          (chooseFont envOk 16)) :=
  (c4_fresh_background_canvas envOk emptyFS rfl rfl rfl rfl).2.2 16 (by decide)

/-- C5: each icon is saved in PNG format at the deterministic path
`assets/icons/icon<S>.png`; with arbitrary pre-existing files at those
paths the run still finishes normally, and afterwards each path holds
exactly the freshly rendered icon (any previous file was overwritten). -/
theorem c5_deterministic_overwriting_paths (env : Env) (init : FS)
    (hp : env.pillowAvailable = true) (h16 : env.saveFails 16 = false)
    (h48 : env.saveFails 48 = false) (h128 : env.saveFails 128 = false) :
    iconPath 16 = "assets/icons/icon16.png" ∧
    iconPath 48 = "assets/icons/icon48.png" ∧
    iconPath 128 = "assets/icons/icon128.png" ∧
    (runProgram env init).outcome = Outcome.finished ∧
    (∀ s ∈ SIZES,
      Event.saveFile (iconPath s) "PNG" ∈ (runProgram env init).trace ∧
      (runProgram env init).fs.fileAt (iconPath s) =
        some (renderedIcon env s)) := by
  have hrw := runProgram_ok env init hp h16 h48 h128
  refine ⟨rfl, rfl, rfl, by rw [hrw], ?_⟩
  intro s hs
  have e1 : iconPath 16 ≠ iconPath 48 := by decide
  have e2 : iconPath 16 ≠ iconPath 128 := by decide
  have e3 : iconPath 48 ≠ iconPath 128 := by decide
  rcases show s = 16 ∨ s = 48 ∨ s = 128 by simpa [SIZES] using hs with rfl | rfl | rfl <;>
    rw [hrw] <;>
    exact ⟨by simp, by simp [FS.writeFile, e1, e2, e3]⟩

/-- C5 witness: a run starting from a filesystem that already holds a file
at every icon path still finishes, and the paths are the concrete ones. -/
theorem c5_deterministic_overwriting_paths_witness :
    iconPath 16 = "assets/icons/icon16.png" ∧
    (runProgram envOk
      ⟨fun _ => false, fun _ => some (PILImage.new "RGB" (1, 1) (0, 0, 0))⟩).outcome
      = Outcome.finished :=
  ⟨(c5_deterministic_overwriting_paths envOk emptyFS rfl rfl rfl rfl).1,
   (c5_deterministic_overwriting_paths envOk
      ⟨fun _ => false, fun _ => some (PILImage.new "RGB" (1, 1) (0, 0, 0))⟩
      rfl rfl rfl rfl).2.2.2.1⟩

/-- C6: the makedirs call is the very first event of any run with Pillow
present, so it precedes every canvas allocation; it creates the output
directory and its parent when absent; when the directory chain already
exists it is the identity; it never touches files; and the outcome of the
run does not depend on the initial filesystem, so a pre-existing directory
cannot fail the run. -/
theorem c6_output_dir_creation (env : Env) (init : FS)
    (hp : env.pillowAvailable = true) :
    ancestors OUTPUT_DIR = ["assets", "assets/icons"] ∧
    (runProgram env init).trace.get? 0 =
      some (Event.makedirs OUTPUT_DIR true) ∧
    (∀ fs : FS, ∀ d ∈ ancestors OUTPUT_DIR,
      (makedirsExistOk fs OUTPUT_DIR).dirExists d = true) ∧
    (∀ fs : FS, (∀ d ∈ ancestors OUTPUT_DIR, fs.dirExists d = true) →
      makedirsExistOk fs OUTPUT_DIR = fs) ∧
    (∀ fs : FS, (makedirsExistOk fs OUTPUT_DIR).fileAt = fs.fileAt) ∧
    (runProgram env init).outcome = (runProgram env emptyFS).outcome := by
  refine ⟨by decide, ?_, ?_, ?_, fun fs => rfl, ?_⟩
  · cases hb : (runLoop env (makedirsExistOk init OUTPUT_DIR) SIZES).2.2 <;>
      simp [runProgram, hp, hb]
  · intro fs d hd
    simp [makedirsExistOk, List.contains, List.elem_iff]
    exact Or.inr hd
  · intro fs h
    have hfun : (fun d => fs.dirExists d || (ancestors OUTPUT_DIR).contains d)
        = fs.dirExists := by
      funext d
      cases hc : (ancestors OUTPUT_DIR).contains d
      · simp
      · have hd : d ∈ ancestors OUTPUT_DIR := by
          rw [List.contains] at hc
          exact List.elem_iff.mp hc
        simp [h d hd]
    show FS.mk (fun d => fs.dirExists d || (ancestors OUTPUT_DIR).contains d)
        fs.fileAt = fs
    rw [hfun]
  · have hf : (runLoop env (makedirsExistOk init OUTPUT_DIR) SIZES).2.2
        = (runLoop env (makedirsExistOk emptyFS OUTPUT_DIR) SIZES).2.2 :=
      runLoop_flag_const env SIZES _ _
    cases hb : (runLoop env (makedirsExistOk emptyFS OUTPUT_DIR) SIZES).2.2 <;>
      simp [runProgram, hp, hf, hb]

/-- C6 witness: in a concrete run the makedirs event comes first, and on a
filesystem already holding the directory chain makedirs is the identity. -/
theorem c6_output_dir_creation_witness :
    ancestors OUTPUT_DIR = ["assets", "assets/icons"] ∧
    (runProgram envOk emptyFS).trace.get? 0 =
      some (Event.makedirs OUTPUT_DIR true) ∧
    makedirsExistOk assetsFS OUTPUT_DIR = assetsFS :=
  ⟨(c6_output_dir_creation envOk emptyFS rfl).1,
   (c6_output_dir_creation envOk emptyFS rfl).2.1,
   (c6_output_dir_creation envOk emptyFS rfl).2.2.2.1 assetsFS (by decide)⟩

/-- C7: the console output of a successful run is exactly one
`Created <path>` line per configured size in configured order followed by
the two final lines, and in the trace each Created line sits immediately
after the save of that size's file. -/
theorem c7_console_output (env : Env) (init : FS)
    (hp : env.pillowAvailable = true) (h16 : env.saveFails 16 = false)
    (h48 : env.saveFails 48 = false) (h128 : env.saveFails 128 = false) :
    printedLines (runProgram env init).trace =
      ["Created " ++ iconPath 16, "Created " ++ iconPath 48,
       "Created " ++ iconPath 128, successMsg1, successMsg2] ∧
    ((runProgram env init).trace.get? 3 =
        some (Event.saveFile (iconPath 16) "PNG") ∧
     (runProgram env init).trace.get? 4 =
        some (Event.printLine ("Created " ++ iconPath 16))) ∧
    ((runProgram env init).trace.get? 7 =
        some (Event.saveFile (iconPath 48) "PNG") ∧
     (runProgram env init).trace.get? 8 =
        some (Event.printLine ("Created " ++ iconPath 48))) ∧
    ((runProgram env init).trace.get? 11 =
        some (Event.saveFile (iconPath 128) "PNG") ∧
     (runProgram env init).trace.get? 12 =
        some (Event.printLine ("Created " ++ iconPath 128))) := by
  rw [runProgram_ok env init hp h16 h48 h128]
  exact ⟨by simp [printedLines], ⟨rfl, rfl⟩, ⟨rfl, rfl⟩, ⟨rfl, rfl⟩⟩

/-- C7 witness: the exact console lines of a concrete benign run. -/
theorem c7_console_output_witness :
    printedLines (runProgram envOk emptyFS).trace =
      ["Created " ++ iconPath 16, "Created " ++ iconPath 48,
       "Created " ++ iconPath 128, successMsg1, successMsg2] :=
  (c7_console_output envOk emptyFS rfl rfl rfl rfl).1

/-- A crash-free loop's trace is the concatenation of per-size traces, each
computed against the empty filesystem: iterations exchange no state. -/
theorem runLoop_trace_flatten (env : Env) : ∀ (l : List Nat) (fs : FS),
    (∀ s ∈ l, env.saveFails s = false) →
    (runLoop env fs l).1 =
      (l.map (fun s => (renderSize env emptyFS s).1)).flatten := by
  intro l
  induction l with
  | nil => intro fs h; rfl
  | cons s rest ih =>
    intro fs h
    have hs : env.saveFails s = false := h s (by simp)
    have hrest : ∀ t ∈ rest, env.saveFails t = false :=
      fun t ht => h t (by simp [ht])
    simp [runLoop, renderSize, hs,
      ih (FS.writeFile fs (iconPath s) (renderedIcon env s)) hrest]

/-- C8: the configuration constants have their initial values (they are
plain definitions, hence never mutated), and a crash-free size loop started
from any filesystem produces the concatenation of per-size traces each of
which is computed independently of every other iteration (against the empty
filesystem), so iterations share no mutable state beyond the constants. -/
theorem c8_constants_and_independent_iterations (env : Env) (fs : FS)
    (l : List Nat) (h : ∀ s ∈ l, env.saveFails s = false) :
    (runLoop env fs l).1 =
      (l.map (fun s => (renderSize env emptyFS s).1)).flatten ∧
    SIZES = [16, 48, 128] ∧ OUTPUT_DIR = "assets/icons" ∧
    BG_COLOR = (102, 126, 234) ∧ TEXT_COLOR = (255, 255, 255) ∧
    TEXT = "R" :=
  ⟨runLoop_trace_flatten env l fs h, rfl, rfl, rfl, rfl, rfl⟩

/-- C8 witness: the decomposition on the configured size list in a concrete
benign environment. -/
theorem c8_constants_and_independent_iterations_witness :
    (runLoop envOk emptyFS SIZES).1 =
      (SIZES.map (fun s => (renderSize envOk emptyFS s).1)).flatten :=
  (c8_constants_and_independent_iterations envOk emptyFS SIZES (by decide)).1

/-- C9: when a save raises partway through the size list, the run crashes
(no retry, no success summary is printed) and every icon written in an
earlier iteration is still on disk, holding exactly the image that was
written; nothing is rolled back. -/
theorem c9_no_rollback_on_partial_failure (env : Env) (init : FS)
    (hp : env.pillowAvailable = true) :
    (env.saveFails 16 = false → env.saveFails 48 = true →
      (runProgram env init).outcome = Outcome.crashed ∧
      (runProgram env init).fs.fileAt (iconPath 16) =
        some (renderedIcon env 16) ∧
      printedLines (runProgram env init).trace =
        ["Created " ++ iconPath 16]) ∧
    (env.saveFails 16 = false → env.saveFails 48 = false →
     env.saveFails 128 = true →
      (runProgram env init).outcome = Outcome.crashed ∧
      (runProgram env init).fs.fileAt (iconPath 16) =
        some (renderedIcon env 16) ∧
      (runProgram env init).fs.fileAt (iconPath 48) =
        some (renderedIcon env 48) ∧
      printedLines (runProgram env init).trace =
        ["Created " ++ iconPath 16, "Created " ++ iconPath 48]) := by
  have e1 : iconPath 16 ≠ iconPath 48 := by decide
  constructor
  · intro h16 h48
    rw [runProgram_crash48 env init hp h16 h48]
    exact ⟨rfl, by simp [FS.writeFile], by simp [printedLines]⟩
  · intro h16 h48 h128
    rw [runProgram_crash128 env init hp h16 h48 h128]
    exact ⟨rfl, by simp [FS.writeFile, e1], by simp [FS.writeFile],
           by simp [printedLines]⟩

/-- C9 witness: concrete crashes after the first and after the second
write. -/
theorem c9_no_rollback_on_partial_failure_witness :
    ((runProgram envSaveFail48 emptyFS).outcome = Outcome.crashed ∧
     (runProgram envSaveFail48 emptyFS).fs.fileAt (iconPath 16) =
       some (renderedIcon envSaveFail48 16)) ∧
    (runProgram envSaveFail128 emptyFS).fs.fileAt (iconPath 48) =
      some (renderedIcon envSaveFail128 48) :=
  ⟨⟨((c9_no_rollback_on_partial_failure envSaveFail48 emptyFS rfl).1 rfl rfl).1,
    ((c9_no_rollback_on_partial_failure envSaveFail48 emptyFS rfl).1 rfl rfl).2.1⟩,
   ((c9_no_rollback_on_partial_failure envSaveFail128 emptyFS rfl).2
      rfl rfl rfl).2.2.1⟩

/-- C10: when the truetype load fails the chosen font is the built-in
default, which carries no size parameter, so two sizes whose loads both
fail use the very same font object and measure the same bounding box; the
computed 60-percent font size is applied only when the preferred font
loads. -/
theorem c10_fallback_ignores_size (env : Env) (s t : Nat)
    (hs : env.truetypeFails HELVETICA (fontSize s) = true)
    (ht : env.truetypeFails HELVETICA (fontSize t) = true) :
    chooseFont env s = Font.defaultFont ∧
    chooseFont env s = chooseFont env t ∧
    env.textbbox (chooseFont env s) TEXT =
      env.textbbox (chooseFont env t) TEXT ∧
    (∀ u : Nat, env.truetypeFails HELVETICA (fontSize u) = false →
      chooseFont env u = Font.truetype HELVETICA (fontSize u)) := by
  refine ⟨by simp [chooseFont, hs], by simp [chooseFont, hs, ht],
          by simp [chooseFont, hs, ht], fun u hu => by simp [chooseFont, hu]⟩

/-- C10 witness: with every truetype load failing, sizes 16 and 128 share
the one default font. -/
theorem c10_fallback_ignores_size_witness :
    chooseFont envFontFail 16 = Font.defaultFont ∧
    chooseFont envFontFail 16 = chooseFont envFontFail 128 :=
  ⟨(c10_fallback_ignores_size envFontFail 16 128 rfl rfl).1,
   (c10_fallback_ignores_size envFontFail 16 128 rfl rfl).2.1⟩
